import Mathlib

/-!
Verification of the typebeat-research-api aggregation core.

The TypeScript sources are embedded shallowly: JavaScript numbers are
modelled as exact rationals (all operations appearing in the verified
code paths are rational; `Math.sqrt` occurs only inside comparisons,
which are embedded via the equivalence `Real.sqrt v < c ↔ v < c ^ 2`
for `0 ≤ v`, `0 < c`, or kept as `Real.sqrt` when the value itself is
returned), `Math.round` is `⌊x + 1/2⌋`, JavaScript `Map` objects are
association lists with insert-or-replace semantics, and `Date.now()` /
`new Date()` are explicit time parameters in milliseconds.
-/

namespace TypeBeat

/-- JavaScript `Math.round`: round half toward positive infinity. -/
def jsRound (q : ℚ) : ℤ := ⌊q + 1 / 2⌋

/-- The idiom `Math.round(x * 100) / 100` (round to two decimals). -/
def round2 (q : ℚ) : ℚ := (jsRound (q * 100) : ℚ) / 100

/-- JavaScript `Math.max(0, Math.min(10, x))`. -/
def clamp010 (q : ℚ) : ℚ := max 0 (min 10 q)

/-! ## `src/lib/services/math-utils.ts` — `MathUtils` (statistics library) -/

namespace MathUtils

/-- Insertion of one element into an ascending-sorted list of rationals;
used to model the JavaScript numeric sort `[...values].sort((a, b) => a - b)`. -/
def insertAsc (x : ℚ) : List ℚ → List ℚ
  | [] => [x]
  | y :: ys => if x ≤ y then x :: y :: ys else y :: insertAsc x ys

/-- Ascending numeric sort, modelling `sort((a, b) => a - b)`. -/
def sortAsc (l : List ℚ) : List ℚ := l.foldr insertAsc []

/-- `MathUtils.mean`. -/
def mean (values : List ℚ) : ℚ :=
  if values.length = 0 then 0
  else values.sum / values.length

/-- `MathUtils.median`. -/
def median (values : List ℚ) : ℚ :=
  if values.length = 0 then 0
  else
    let sorted := sortAsc values
    let mid := sorted.length / 2
    if sorted.length % 2 = 0 then
      (sorted.getD (mid - 1) 0 + sorted.getD mid 0) / 2
    else
      sorted.getD mid 0

/-- The variance computed inside `MathUtils.standardDeviation`
(`values.reduce((sum, val) => sum + Math.pow(val - avg, 2), 0) / values.length`). -/
def varianceOf (values : List ℚ) : ℚ :=
  (values.map (fun v => (v - mean values) ^ 2)).sum / values.length

/-- `MathUtils.standardDeviation`; the final `Math.sqrt` forces a real result. -/
noncomputable def standardDeviation (values : List ℚ) : ℝ :=
  if values.length = 0 then 0
  else Real.sqrt (varianceOf values)

/-- `MathUtils.percentile`. The index `(percentile / 100) * (sorted.length - 1)`
is an exact rational; `Number.isInteger(index)` is the test `⌊index⌋ = index`. -/
def percentile (values : List ℚ) (p : ℚ) : ℚ :=
  if values.length = 0 then 0
  else
    let sorted := sortAsc values
    let index : ℚ := p / 100 * ((sorted.length : ℚ) - 1)
    if (⌊index⌋ : ℚ) = index then
      sorted.getD ⌊index⌋.toNat 0
    else
      let lower := ⌊index⌋
      let upper := ⌈index⌉
      let weight := index - lower
      sorted.getD lower.toNat 0 * (1 - weight) + sorted.getD upper.toNat 0 * weight

/-- The loop body sum of `MathUtils.giniCoefficient`:
`Σ_i (2 * (i + 1) - n - 1) * sorted[i]`. -/
def giniSum (sorted : List ℚ) (n : ℕ) : ℚ :=
  (sorted.enum.map (fun p => ((2 * ((p.1 : ℚ) + 1) - n - 1)) * p.2)).sum

/-- `MathUtils.giniCoefficient`. -/
def giniCoefficient (values : List ℚ) : ℚ :=
  if values.length = 0 then 0
  else
    let sorted := sortAsc values
    let n := sorted.length
    let s := sorted.sum
    if s = 0 then 0
    else giniSum sorted n / (n * s)

end MathUtils

/-! ## `src/types/scoring.ts` and `src/lib/config.ts` — scoring data model -/

/-- `ScoringWeights` from `src/types/scoring.ts`. -/
structure ScoringWeights where
  volume_weight : ℚ
  competition_weight : ℚ
  trend_weight : ℚ
  similarity_weight : ℚ
  saturation_weight : ℚ
deriving Repr, DecidableEq

/-- `ScoringConfig` from `src/types/scoring.ts`. -/
structure ScoringConfig where
  weights : ScoringWeights
  min_volume_threshold : ℚ
  max_competition_threshold : ℚ
  min_similarity_threshold : ℚ
  trend_boost_factor : ℚ
  recency_decay_factor : ℚ
deriving Repr, DecidableEq

/-- `scoringWeights` from `src/lib/config.ts` with the default environment
(the `parseFloat(process.env… || default)` fallbacks). -/
def scoringWeights : ScoringWeights :=
  { volume_weight := 0.3
    competition_weight := 0.25
    trend_weight := 0.2
    similarity_weight := 0.15
    saturation_weight := 0.1 }

/-- `scoringConfig` from `src/lib/config.ts`. -/
def scoringConfig : ScoringConfig :=
  { weights := scoringWeights
    min_volume_threshold := 100
    max_competition_threshold := 0.8
    min_similarity_threshold := 0.3
    trend_boost_factor := 1.5
    recency_decay_factor := 0.95 }

/-- `'low' | 'medium' | 'high'` confidence labels. -/
inductive Confidence where
  | low
  | medium
  | high
deriving Repr, DecidableEq

/-- `FinalScore` from `src/types/scoring.ts`; `calculated_at : Date` is a
millisecond timestamp. -/
structure FinalScore where
  artist_name : String
  overall_score : ℚ
  volume_score : ℚ
  competition_score : ℚ
  trend_score : ℚ
  similarity_score : ℚ
  confidence_level : Confidence
  calculated_at : ℕ
deriving Repr, DecidableEq

/-! ## `src/lib/services/math-utils.ts` — `ScoringService` -/

namespace ScoringService

/-- `ScoringService.calculateFinalScore`. The source computes
`standardDeviation = Math.sqrt(variance)` and compares it with `1.5` and `3`;
since `variance ≥ 0`, `Math.sqrt(variance) < c ↔ variance < c²`, so the
confidence branch is embedded as comparisons of `variance` with `2.25` and `9`.
`new Date()` is the explicit `now` parameter. -/
def calculateFinalScore (config : ScoringConfig)
    (volumeScore competitionScore trendScore saturationScore similarityScore : ℚ)
    (artistName : String) (now : ℕ) : FinalScore :=
  let w := config.weights
  let overallScore :=
    volumeScore * w.volume_weight +
    competitionScore * w.competition_weight +
    trendScore * w.trend_weight +
    saturationScore * w.saturation_weight +
    similarityScore * w.similarity_weight
  let scores := [volumeScore, competitionScore, trendScore, saturationScore, similarityScore]
  let avgScore := scores.sum / (scores.length : ℚ)
  let variance := (scores.map (fun s => (s - avgScore) ^ 2)).sum / (scores.length : ℚ)
  let confidenceLevel : Confidence :=
    if variance < 225 / 100 then .high
    else if variance < 9 then .medium
    else .low
  { artist_name := artistName
    overall_score := round2 overallScore
    volume_score := volumeScore
    competition_score := competitionScore
    trend_score := trendScore
    similarity_score := similarityScore
    confidence_level := confidenceLevel
    calculated_at := now }

/-- The four optional context flags of `ScoringService.applyContextualAdjustments`. -/
structure AdjustmentContext where
  isNewArtist : Bool
  hasRecentHit : Bool
  isRegionalArtist : Bool
  hasLabelSupport : Bool
deriving Repr, DecidableEq

/-- `ScoringService.applyContextualAdjustments`. -/
def applyContextualAdjustments (score : FinalScore) (context : AdjustmentContext) :
    FinalScore :=
  let adjustedScore := score.overall_score
  let adjustedScore := if context.isNewArtist then adjustedScore + 0.5 else adjustedScore
  let adjustedScore := if context.hasRecentHit then adjustedScore - 0.3 else adjustedScore
  let adjustedScore := if context.isRegionalArtist then adjustedScore + 0.2 else adjustedScore
  let adjustedScore := if context.hasLabelSupport then adjustedScore - 0.2 else adjustedScore
  { score with overall_score := clamp010 (round2 adjustedScore) }

end ScoringService

/-! ## `src/app/api/research/suggestions/utils.ts` — `calculateCompositeScore` -/

/-- The `metrics` argument of `calculateCompositeScore`. -/
structure CompositeMetrics where
  volume : ℚ
  competition : ℚ
  trend : ℚ
  similarity : ℚ
  saturation : ℚ
deriving Repr, DecidableEq

/-- `calculateCompositeScore` from the suggestions endpoint utilities. -/
def calculateCompositeScore (metrics : CompositeMetrics) : ℚ :=
  let normalizedVolume := min (metrics.volume / 1000) 10
  let normalizedCompetition := metrics.competition * 10
  let normalizedTrend := metrics.trend * 10
  let normalizedSimilarity := metrics.similarity * 10
  let normalizedSaturation := (1 - metrics.saturation) * 10
  let score :=
    normalizedVolume * 0.3 +
    normalizedCompetition * 0.25 +
    normalizedTrend * 0.2 +
    normalizedSimilarity * 0.15 +
    normalizedSaturation * 0.1
  max 0 (min 10 score)

/-- Modelled from the spec (refinement comparison only): the composite formula
exactly as the specification words it, `0.30*volume + 0.25*competition +
0.25*trend + 0.20*saturation` with similarity weighted at `0.15` relative to
the other four when present. This is NOT a source translation; it exists to
be compared against `ScoringService.calculateFinalScore`. -/
def specClaimedOverall (volume competition trend saturation similarity : ℚ) : ℚ :=
  0.30 * volume + 0.25 * competition + 0.25 * trend + 0.20 * saturation +
    0.15 * similarity

/-! ## JavaScript string helpers -/

/-- Strip whitespace from both ends of a character list; together with a
character-wise lowercase map this models `s.toLowerCase().trim()`. -/
def trimWS (l : List Char) : List Char :=
  ((l.dropWhile Char.isWhitespace).reverse.dropWhile Char.isWhitespace).reverse

/-- JavaScript `s.toLowerCase()` (character-wise lowercase). -/
def jsLower (s : String) : String := String.mk (s.data.map Char.toLower)

/-- JavaScript `g.toLowerCase().trim()` as used to normalize genre strings. -/
def normGenre (s : String) : String := String.mk (trimWS (s.data.map Char.toLower))

/-! ## `src/lib/services/similarity-calculator.ts` — `SimilarityCalculator` -/

namespace SimilarityCalculator

/-- `SimilarityCalculator.calculateGenreOverlap`: guard on empty inputs, then
Jaccard index of the normalized genre lists (`intersection.length / union.size`,
where the union is a JavaScript `Set`, i.e. the deduplicated concatenation). -/
def calculateGenreOverlap (genres1 genres2 : List String) : ℚ :=
  if genres1.length = 0 ∨ genres2.length = 0 then 0
  else
    let normalizedGenres1 := genres1.map normGenre
    let normalizedGenres2 := genres2.map normGenre
    let intersection := normalizedGenres1.filter (fun genre => normalizedGenres2.contains genre)
    let union := (normalizedGenres1 ++ normalizedGenres2).dedup
    (intersection.length : ℚ) / (union.length : ℚ)

end SimilarityCalculator

/-! ## JavaScript `Map` / key-value store model (association lists) -/

/-- `Map.get` / first entry with the given key. -/
def mfind {β : Type} (k : String) : List (String × β) → Option β
  | [] => none
  | (k', v) :: rest => if k' = k then some v else mfind k rest

/-- `Map.set`: replace in place if the key is present, else append. -/
def mapSet {β : Type} (k : String) (v : β) : List (String × β) → List (String × β)
  | [] => [(k, v)]
  | (k', v') :: rest => if k' = k then (k, v) :: rest else (k', v') :: mapSet k v rest

/-- Deletion of every entry with the given key (Redis `DEL key`). -/
def mapDelete {β : Type} (k : String) : List (String × β) → List (String × β)
  | [] => []
  | (k', v') :: rest => if k' = k then mapDelete k rest else (k', v') :: mapDelete k rest

/-- The keys of an association list, in order. -/
def mapKeys {β : Type} (m : List (String × β)) : List String := m.map Prod.fst

/-! ## `src/lib/cache/redis-client.ts` — `RedisClient` -/

namespace RedisClient

/-- `CacheEntry` wrapper: `{data, timestamp, ttl, version}`; `timestamp` is
`Date.now()` in milliseconds, `ttl` in seconds. -/
structure CacheEntry (V : Type) where
  data : V
  timestamp : ℕ
  ttl : ℕ
  version : String
deriving Repr, DecidableEq

/-- The observable state of a `RedisClient`: the backing store (keyed entries),
the `isConnected` flag, and `config.defaultTTL`. -/
structure CacheState (V : Type) where
  store : List (String × CacheEntry V)
  isConnected : Bool
  defaultTTL : ℕ
deriving Repr, DecidableEq

/-- `TTL_PRESETS` (seconds per data type). -/
def TTL_PRESETS : String → Option ℕ
  | "youtube_search" => some 3600
  | "youtube_video_details" => some 7200
  | "spotify_artist" => some 86400
  | "spotify_related" => some 43200
  | "lastfm_similar" => some 21600
  | "lastfm_artist_info" => some 86400
  | "genius_artist" => some 172800
  | "artist_analysis" => some 1800
  | "similarity_metrics" => some 3600
  | "volume_metrics" => some 1800
  | "competition_metrics" => some 3600
  | "trend_metrics" => some 900
  | "suggestions" => some 600
  | "artist_suggestions" => some 1200
  | "api_quotas" => some 86400
  | "rate_limits" => some 3600
  | "user_session" => some 1800
  | "search_history" => some 604800
  | _ => none

/-- JavaScript `a || b` on an optional number (`0` and `undefined` are falsy). -/
def jsOrNat (a : Option ℕ) (b : ℕ) : ℕ :=
  match a with
  | some n => if n = 0 then b else n
  | none => b

/-- The TTL selection of `RedisClient.set`:
`ttl || (dataType ? TTL_PRESETS[dataType] : undefined) || config.defaultTTL`. -/
def finalTTL (ttl : Option ℕ) (dataType : Option String) (defaultTTL : ℕ) : ℕ :=
  jsOrNat ttl (jsOrNat (dataType.bind TTL_PRESETS) defaultTTL)

/-- `RedisClient.get` at wall-clock `now` (milliseconds): a disconnected client
misses; a stored entry is a hit only while `now ≤ timestamp + ttl * 1000`, and
an expired entry is deleted on the read. Returns the value and the new state. -/
def redisGet {V : Type} (st : CacheState V) (key : String) (now : ℕ) :
    Option V × CacheState V :=
  if st.isConnected = false then (none, st)
  else
    match mfind key st.store with
    | none => (none, st)
    | some entry =>
      if entry.timestamp + entry.ttl * 1000 < now then
        (none, { st with store := mapDelete key st.store })
      else
        (some entry.data, st)

/-- `RedisClient.set` at wall-clock `now`: a disconnected client stores nothing
and returns `false`; otherwise the entry `{data, timestamp := now, ttl, version
:= "1.0"}` is written under the key. -/
def redisSet {V : Type} (st : CacheState V) (key : String) (value : V)
    (ttl : Option ℕ) (dataType : Option String) (now : ℕ) : Bool × CacheState V :=
  if st.isConnected = false then (false, st)
  else
    let t := finalTTL ttl dataType st.defaultTTL
    (true, { st with store := mapSet key ⟨value, now, t, "1.0"⟩ st.store })

/-- `RedisClient.getOrSet` (cache-aside): try `get`; on a hit return the cached
value, on a miss run the factory (whose result is the pure input
`factoryValue`), `set` it, and return it. The third component counts how many
times the factory was invoked. -/
def getOrSet {V : Type} (st : CacheState V) (key : String) (factoryValue : V)
    (ttl : Option ℕ) (dataType : Option String) (now : ℕ) :
    V × CacheState V × ℕ :=
  match redisGet st key now with
  | (some cached, st') => (cached, st', 0)
  | (none, st') =>
    let r := redisSet st' key factoryValue ttl dataType now
    (factoryValue, r.2, 1)

end RedisClient

/-! ## `src/lib/apis/lastfm-client.ts` — `LastFmClient` rate limiting -/

namespace LastFmClient

/-- Transport-boundary issue times of the queued requests drained by
`processQueue`: request `0` starts at `t0`; after each request the loop awaits
its completion (`dur n` milliseconds) and then sleeps 200 ms
(`RATE_LIMIT = 5` requests per second), so request `n + 1` starts at
`issueTimes n + dur n + 200`. -/
def issueTimes (t0 : ℕ) (dur : ℕ → ℕ) : ℕ → ℕ
  | 0 => t0
  | n + 1 => issueTimes t0 dur n + dur n + 200

/-- The drain loop of `processQueue`: repeatedly `shift()` the front of the
FIFO queue and execute it, accumulating the executed requests in order. -/
def processQueue {α : Type} (executed : List α) : List α → List α
  | [] => executed
  | request :: rest => processQueue (executed ++ [request]) rest

end LastFmClient

/-! ## `src/lib/apis/api-orchestrator.ts` — candidate merge in `findSimilarArtists` -/

namespace APIOrchestrator

/-- The fields of a Spotify artist payload used by the merge
(`SpotifyArtist` in `src/types/artist.ts`). -/
structure SpotifyArtistT where
  spotify_id : String
  name : String
  genres : List String
  popularity : ℚ
deriving Repr, DecidableEq

/-- The fields of a Last.fm artist payload used by the merge; the source field
named `match` (the 0–1 similarity score) is renamed `match_score` because
`match` is a Lean keyword. -/
structure LastFmArtistT where
  name : String
  match_score : ℚ
deriving Repr, DecidableEq

/-- Internal `Artist` (subset of `src/types/artist.ts` used by the merge). -/
structure Artist where
  id : String
  name : String
  genres : List String
  popularity : ℚ
deriving Repr, DecidableEq

/-- Worker for `dashWSRuns`; the flag records whether the previous character
was whitespace (so a run of whitespace yields a single dash). -/
def dashWSRunsGo : Bool → List Char → List Char
  | _, [] => []
  | prevWS, c :: rest =>
    if c.isWhitespace then
      if prevWS then dashWSRunsGo true rest else '-' :: dashWSRunsGo true rest
    else
      c :: dashWSRunsGo false rest

/-- The regex replace `name.toLowerCase().replace(/\s+/g, "-")`: every maximal
run of whitespace collapses to a single dash. -/
def dashWSRuns (l : List Char) : List Char := dashWSRunsGo false l

/-- `APIOrchestrator.convertSpotifyToArtist`. -/
def convertSpotifyToArtist (spotifyArtist : SpotifyArtistT) : Artist :=
  { id := spotifyArtist.spotify_id
    name := spotifyArtist.name
    genres := spotifyArtist.genres
    popularity := spotifyArtist.popularity }

/-- `APIOrchestrator.convertLastFmToArtist`. -/
def convertLastFmToArtist (lastfmArtist : LastFmArtistT) : Artist :=
  { id := String.mk (dashWSRuns (jsLower lastfmArtist.name).data)
    name := lastfmArtist.name
    genres := []
    popularity := (jsRound (lastfmArtist.match_score * 100) : ℚ) }

/-- One entry of the `candidates` map built by `findSimilarArtists`. -/
structure MergeCandidate where
  artist : Artist
  sources : List String
  spotifyData : Option SpotifyArtistT
  lastfmData : Option LastFmArtistT
deriving Repr, DecidableEq

/-- Phase 1 step of the merge: each Spotify related artist is `set` into the
map under its lowercased name with sources `["spotify"]`. -/
def addSpotify (m : List (String × MergeCandidate)) (spotifyArtist : SpotifyArtistT) :
    List (String × MergeCandidate) :=
  let artist := convertSpotifyToArtist spotifyArtist
  mapSet (jsLower artist.name)
    { artist := artist
      sources := ["spotify"]
      spotifyData := some spotifyArtist
      lastfmData := none } m

/-- Phase 2 step of the merge: a Last.fm related artist either fuses into an
existing entry with the same lowercased name (pushing `"lastfm"` onto its
sources and setting its `lastfmData`) or is inserted fresh. -/
def addLastfm (m : List (String × MergeCandidate)) (lastfmArtist : LastFmArtistT) :
    List (String × MergeCandidate) :=
  let artist := convertLastFmToArtist lastfmArtist
  let key := jsLower artist.name
  match mfind key m with
  | some existing =>
    mapSet key
      { existing with
        sources := existing.sources ++ ["lastfm"]
        lastfmData := some lastfmArtist } m
  | none =>
    mapSet key
      { artist := artist
        sources := ["lastfm"]
        spotifyData := none
        lastfmData := some lastfmArtist } m

/-- The candidate-collection stage of `APIOrchestrator.findSimilarArtists`
(with both providers enabled in `options.sources`): fold the Spotify related
artists, then the Last.fm related artists, into the `candidates` map. -/
def mergeCandidates (spotify : List SpotifyArtistT) (lastfm : List LastFmArtistT) :
    List (String × MergeCandidate) :=
  lastfm.foldl addLastfm (spotify.foldl addSpotify [])

end APIOrchestrator

/-! ## `src/app/api/research/suggestions/utils.ts` and `route.ts` — suggestions -/

namespace Suggestions

/-- `metrics` field of an `ArtistSuggestion`. -/
structure SuggestionMetrics where
  volume : ℚ
  competition : String
  trend : String
  saturation : ℚ
deriving Repr, DecidableEq

/-- `details` field of an `ArtistSuggestion`. -/
structure SuggestionDetails where
  genre : String
  bpm : ℚ
  reason : String
  confidence : String
deriving Repr, DecidableEq

/-- `sources` field of an `ArtistSuggestion`. -/
structure SuggestionSources where
  spotify : Bool
  lastfm : Bool
  youtube : Bool
deriving Repr, DecidableEq

/-- `ArtistSuggestion` from `src/types/api.ts`. -/
structure ArtistSuggestion where
  artist : String
  score : ℚ
  metrics : SuggestionMetrics
  details : SuggestionDetails
  sources : SuggestionSources
deriving Repr, DecidableEq

/-- The `'Drake'` row of the static `mockDatabase`. -/
def mockDrake : List ArtistSuggestion :=
  [ { artist := "Lil Baby"
      score := 8.7
      metrics := ⟨15000, "medium", "rising", 0.35⟩
      details := ⟨"Atlanta rap", 140, "Style mélodique similaire, forte demande", "high"⟩
      sources := ⟨true, true, true⟩ },
    { artist := "Gunna"
      score := 8.2
      metrics := ⟨12000, "medium", "stable", 0.4⟩
      details := ⟨"Melodic trap", 145, "Même label YSL, audience similaire", "high"⟩
      sources := ⟨true, true, true⟩ },
    { artist := "Roddy Ricch"
      score := 7.9
      metrics := ⟨11000, "high", "stable", 0.45⟩
      details := ⟨"West Coast rap", 135, "Mélodies accrocheuses, bon potentiel", "medium"⟩
      sources := ⟨true, false, true⟩ } ]

/-- The `'Future'` row of the static `mockDatabase`. -/
def mockFuture : List ArtistSuggestion :=
  [ { artist := "Young Thug"
      score := 8.5
      metrics := ⟨13000, "medium", "rising", 0.3⟩
      details := ⟨"Atlanta trap", 150, "Même scène Atlanta, style expérimental", "high"⟩
      sources := ⟨true, true, true⟩ },
    { artist := "Lil Uzi Vert"
      score := 8.1
      metrics := ⟨10000, "medium", "stable", 0.35⟩
      details := ⟨"Melodic rap", 155, "Flows innovants, audience jeune", "medium"⟩
      sources := ⟨true, true, true⟩ } ]

/-- The `'Travis Scott'` row of the static `mockDatabase`. -/
def mockTravisScott : List ArtistSuggestion :=
  [ { artist := "Don Toliver"
      score := 8.3
      metrics := ⟨9500, "low", "rising", 0.25⟩
      details := ⟨"Houston rap", 140, "Même label Cactus Jack, style psychédélique", "high"⟩
      sources := ⟨true, false, true⟩ },
    { artist := "Sheck Wes"
      score := 7.6
      metrics := ⟨7000, "low", "stable", 0.2⟩
      details := ⟨"Rage rap", 160, "Énergie similaire, moins saturé", "medium"⟩
      sources := ⟨true, true, true⟩ } ]

/-- The `defaultSuggestions` fallback rows. -/
def defaultSuggestions : List ArtistSuggestion :=
  [ { artist := "Emerging Artist 1"
      score := 7.5
      metrics := ⟨8000, "low", "rising", 0.3⟩
      details := ⟨"Hip-hop", 140, "Opportunité émergente détectée", "medium"⟩
      sources := ⟨true, false, true⟩ },
    { artist := "Emerging Artist 2"
      score := 7.2
      metrics := ⟨6500, "low", "stable", 0.25⟩
      details := ⟨"Trap", 145, "Marché peu exploité", "medium"⟩
      sources := ⟨false, true, true⟩ } ]

/-- `generateMockSuggestions`: look the artist up in the static table, fall
back to the default rows, and slice to `limit`. -/
def generateMockSuggestions (artistName : String) (limit : ℕ) : List ArtistSuggestion :=
  let suggestions :=
    if artistName = "Drake" then mockDrake
    else if artistName = "Future" then mockFuture
    else if artistName = "Travis Scott" then mockTravisScott
    else defaultSuggestions
  suggestions.take limit

/-- JavaScript `s.charAt(0).toUpperCase() + s.slice(1)`. -/
def capitalizeFirst (s : String) : String :=
  match s.data with
  | [] => ""
  | c :: rest => String.mk (c.toUpper :: rest)

/-- The module-local `generateReason(candidate, youtubeMetrics)` helper
defined at the bottom of the suggestions route file (the one the `POST`
handler actually calls; the `generateReason` in `utils.ts` is not imported by
the route). Five checks: the candidate supplies
`candidate.similarity.style_compatibility` and `candidate.sources`, the
YouTube metrics supply `competition_level`, `trend_direction` and `volume`. -/
def generateReason (style_compatibility : ℚ) (sources : List String)
    (competition_level trend_direction : String) (volume : ℚ) : String :=
  let reasons : List String :=
    (if competition_level = "low" then ["marché peu saturé"] else []) ++
    (if trend_direction = "rising" then ["tendance croissante"] else []) ++
    (if style_compatibility > 0.8 then ["style très similaire"] else []) ++
    (if volume > 5000 then ["bon volume de recherche"] else []) ++
    (if sources.length > 1 then ["validé sur plusieurs plateformes"] else [])
  if reasons.length = 0 then "Opportunité détectée par l\x27algorithme"
  else capitalizeFirst (String.intercalate ", " reasons)

/-- The YouTube metrics consumed per candidate by the route. -/
structure YtMetricsR where
  volume : ℚ
  competition_score : ℚ
  trend_score : ℚ
  saturation_score : ℚ
  competition_level : String
  trend_direction : String
deriving Repr, DecidableEq

/-- One candidate from `findSimilarArtists` as consumed by the route, together
with the outcome of its YouTube analysis (`yt = none` models a failed or
timed-out `calculateYouTubeMetrics`, which the loop skips with `continue`) and
the `Math.random()`-derived bpm as an oracle input. -/
structure CandidateR where
  name : String
  genres : List String
  style_compatibility : ℚ
  sources : List String
  yt : Option YtMetricsR
  bpm : ℚ
deriving Repr, DecidableEq

/-- The composite score the route computes for one candidate (note the volume
is normalized once here and a second time inside `calculateCompositeScore`). -/
def candidateScore (c : CandidateR) (m : YtMetricsR) : ℚ :=
  calculateCompositeScore
    { volume := min (m.volume / 1000) 10
      competition := m.competition_score * 10
      trend := m.trend_score * 10
      similarity := c.style_compatibility * 10
      saturation := (1 - m.saturation_score) * 10 }

/-- The suggestion object the route pushes for a qualifying candidate. -/
def buildSuggestion (c : CandidateR) (m : YtMetricsR) (finalScore : ℚ) :
    ArtistSuggestion :=
  { artist := c.name
    score := (jsRound (finalScore * 10) : ℚ) / 10
    metrics := ⟨m.volume, m.competition_level, m.trend_direction, m.saturation_score⟩
    details :=
      { genre :=
          match c.genres with
          | [] => "Hip-hop"
          | g :: _ => if g = "" then "Hip-hop" else g
        bpm := c.bpm
        reason := generateReason c.style_compatibility c.sources
          m.competition_level m.trend_direction m.volume
        confidence :=
          if finalScore ≥ 7 then "high"
          else if finalScore ≥ 55 / 10 then "medium"
          else "low" }
    sources := ⟨c.sources.contains "spotify", c.sources.contains "lastfm", true⟩ }

/-- The analysis loop of the route over `candidates.slice(0, limit * 1.5)`:
skip candidates whose YouTube analysis failed, compute the composite score,
and keep a suggestion when `finalScore >= 5.0 && youtubeMetrics.volume > 500`. -/
def buildRealSuggestions (limit : ℕ) (cands : List CandidateR) : List ArtistSuggestion :=
  (cands.take (3 * limit / 2)).filterMap (fun c =>
    match c.yt with
    | none => none
    | some m =>
      let finalScore := candidateScore c m
      if finalScore ≥ 5 ∧ m.volume > 500 then some (buildSuggestion c m finalScore)
      else none)

/-- Insertion step of the stable descending sort by score: `x` is placed
after every already-inserted element whose score is `≥ x.score`. -/
def insertDesc (x : ArtistSuggestion) : List ArtistSuggestion → List ArtistSuggestion
  | [] => [x]
  | y :: ys => if y.score < x.score then x :: y :: ys else y :: insertDesc x ys

/-- `suggestions.sort((a, b) => b.score - a.score)`: `Array.prototype.sort` is
stable, so elements are inserted left to right and equal scores keep their
original relative order. -/
def sortByScoreDesc (l : List ArtistSuggestion) : List ArtistSuggestion :=
  l.foldl (fun acc x => insertDesc x acc) []

/-- The caller-visible outcome of the `POST /api/research/suggestions`
handler: HTTP-equivalent success flag, the `fallback_used` metadata indicator,
and the suggestion list. -/
structure PostResult where
  success : Bool
  fallback_used : Bool
  suggestions : List ArtistSuggestion
deriving Repr, DecidableEq

/-- The happy-path/fallback control flow of the route handler. The `outcome`
input is the result of the orchestrator fan-out: `Except.error` models
`findSimilarArtists` rejecting (every provider failed or timed out), `.ok`
carries the candidate list. `limitRaw` is `body.limit || 3` before the
`Math.min(·, 10)` cap. In every branch the handler resolves with success
(`NextResponse.json` with no error status). -/
def processSuggestions (artist : String) (limitRaw : ℕ)
    (outcome : Except Unit (List CandidateR)) : PostResult :=
  let limit := min limitRaw 10
  match outcome with
  | .error _ =>
    let suggestions := generateMockSuggestions artist limit
    { success := true, fallback_used := true,
      suggestions := (sortByScoreDesc suggestions).take limit }
  | .ok cands =>
    let real := buildRealSuggestions limit cands
    if real.length = 0 then
      let suggestions := generateMockSuggestions artist limit
      { success := true, fallback_used := true,
        suggestions := (sortByScoreDesc suggestions).take limit }
    else
      { success := true, fallback_used := false,
        suggestions := (sortByScoreDesc real).take limit }

end Suggestions

namespace APIOrchestrator

/-- Invariant of the `candidates` map after phase 1 of the merge (the Spotify
fold): keys are pairwise distinct, a key is present exactly when some processed
Spotify artist lowercases to it, and every entry carries sources
`["spotify"]`, no Last.fm data, and the Spotify payload of a matching artist. -/
def SpInv (sp : List SpotifyArtistT) (m : List (String × MergeCandidate)) : Prop :=
  (mapKeys m).Nodup ∧
  (∀ k, (mfind k m).isSome ↔ ∃ sa ∈ sp, jsLower sa.name = k) ∧
  (∀ k c, mfind k m = some c →
    c.sources = ["spotify"] ∧ c.lastfmData = none ∧
    ∃ sa ∈ sp, jsLower sa.name = k ∧ c.spotifyData = some sa)

/-- Invariant of the `candidates` map during phase 2 of the merge: keys are
pairwise distinct; a key is present exactly when a processed artist of either
provider lowercases to it; and each entry's provider tags and provider-specific
payloads correspond exactly to the providers that supplied the key. -/
def MergeInv (sp : List SpotifyArtistT) (lf : List LastFmArtistT)
    (m : List (String × MergeCandidate)) : Prop :=
  (mapKeys m).Nodup ∧
  (∀ k, (mfind k m).isSome ↔
    ((∃ sa ∈ sp, jsLower sa.name = k) ∨ (∃ la ∈ lf, jsLower la.name = k))) ∧
  (∀ k c, mfind k m = some c →
    ("spotify" ∈ c.sources ↔ ∃ sa ∈ sp, jsLower sa.name = k) ∧
    ("lastfm" ∈ c.sources ↔ ∃ la ∈ lf, jsLower la.name = k) ∧
    (∀ sa, c.spotifyData = some sa → sa ∈ sp ∧ jsLower sa.name = k) ∧
    ((∃ sa ∈ sp, jsLower sa.name = k) → c.spotifyData.isSome) ∧
    (∀ la, c.lastfmData = some la → la ∈ lf ∧ jsLower la.name = k) ∧
    ((∃ la ∈ lf, jsLower la.name = k) → c.lastfmData.isSome))

end APIOrchestrator

/-! ## Shared helper lemmas -/

theorem mem_mapKeys_mapSet {β : Type} (k k' : String) (v : β)
    (m : List (String × β)) :
    k' ∈ mapKeys (mapSet k v m) ↔ k' = k ∨ k' ∈ mapKeys m := by
  induction m with
  | nil => simp [mapSet, mapKeys]
  | cons p rest ih =>
    obtain ⟨pk, pv⟩ := p
    by_cases hp : pk = k
    · subst hp
      simp [mapSet, mapKeys]
    · simp only [mapSet, if_neg hp, mapKeys, List.map_cons, List.mem_cons] at ih ⊢
      rw [ih]
      tauto

theorem mapKeys_mapSet_nodup {β : Type} (k : String) (v : β)
    (m : List (String × β)) :
    (mapKeys m).Nodup → (mapKeys (mapSet k v m)).Nodup := by
  induction m with
  | nil =>
    intro _
    simp [mapSet, mapKeys]
  | cons p rest ih =>
    intro h
    obtain ⟨pk, pv⟩ := p
    simp only [mapKeys, List.map_cons, List.nodup_cons] at h
    by_cases hp : pk = k
    · subst hp
      simpa [mapSet, mapKeys] using h
    · simp only [mapSet, if_neg hp, mapKeys, List.map_cons, List.nodup_cons]
      refine ⟨?_, ih h.2⟩
      rw [show (mapSet k v rest).map Prod.fst = mapKeys (mapSet k v rest) from rfl,
        mem_mapKeys_mapSet]
      push_neg
      exact ⟨hp, h.1⟩

theorem mfind_none_iff {β : Type} (k : String) (m : List (String × β)) :
    mfind k m = none ↔ k ∉ mapKeys m := by
  induction m with
  | nil => simp [mfind, mapKeys]
  | cons p rest ih =>
    obtain ⟨pk, pv⟩ := p
    by_cases hp : pk = k
    · subst hp
      simp [mfind, mapKeys]
    · have hkp : ¬k = pk := fun hh => hp hh.symm
      simp [mfind, hp, mapKeys, ih, hkp]

theorem jsRound_mono {a b : ℚ} (h : a ≤ b) : jsRound a ≤ jsRound b :=
  Int.floor_le_floor (by linarith)

theorem round2_mono {a b : ℚ} (h : a ≤ b) : round2 a ≤ round2 b := by
  unfold round2
  have hz : ((jsRound (a * 100) : ℤ) : ℚ) ≤ ((jsRound (b * 100) : ℤ) : ℚ) := by
    exact_mod_cast jsRound_mono (by linarith)
  linarith

theorem round2_zero : round2 0 = 0 := by norm_num [round2, jsRound]

theorem round2_ten : round2 10 = 10 := by norm_num [round2, jsRound]

theorem clamp010_nonneg (q : ℚ) : 0 ≤ clamp010 q := le_max_left 0 _

theorem clamp010_le_ten (q : ℚ) : clamp010 q ≤ 10 :=
  max_le (by norm_num) (min_le_left 10 q)

theorem filter_contains_length (n1 n2 : List String) (h1 : n1.Nodup) :
    ((n1.filter (fun g => n2.contains g)).length : ℕ) =
      (n1.toFinset ∩ n2.toFinset).card := by
  have hc : (fun g => n2.contains g) = (fun g => decide (g ∈ n2)) := by
    funext g
    by_cases h : g ∈ n2 <;> simp [h]
  rw [hc, ← List.toFinset_card_of_nodup (h1.filter _), List.toFinset_filter]
  congr 1
  ext a
  simp [Finset.mem_filter, Finset.mem_inter]

theorem dedup_append_length (n1 n2 : List String) :
    ((n1 ++ n2).dedup.length : ℕ) = (n1.toFinset ∪ n2.toFinset).card := by
  rw [← List.toFinset_card_of_nodup (List.nodup_dedup _)]
  have h : (n1 ++ n2).dedup.toFinset = (n1 ++ n2).toFinset := by
    ext a
    simp [List.mem_dedup]
  rw [h, List.toFinset_append]

theorem genreOverlap_eq_jaccard (g1 g2 : List String)
    (h1 : (g1.map normGenre).Nodup) (hne1 : g1 ≠ []) (hne2 : g2 ≠ []) :
    SimilarityCalculator.calculateGenreOverlap g1 g2 =
      (((g1.map normGenre).toFinset ∩ (g2.map normGenre).toFinset).card : ℚ) /
        (((g1.map normGenre).toFinset ∪ (g2.map normGenre).toFinset).card : ℚ) := by
  unfold SimilarityCalculator.calculateGenreOverlap
  rw [if_neg]
  · dsimp only
    rw [show ((g1.map normGenre).filter
        (fun genre => (g2.map normGenre).contains genre)).length =
        ((g1.map normGenre).toFinset ∩ (g2.map normGenre).toFinset).card from
      filter_contains_length _ _ h1]
    rw [show ((g1.map normGenre ++ g2.map normGenre).dedup).length =
        ((g1.map normGenre).toFinset ∪ (g2.map normGenre).toFinset).card from
      dedup_append_length _ _]
  · push_neg
    constructor <;> simp [List.length_eq_zero, hne1, hne2]

theorem toFinset_map_nonempty (g : List String) (hne : g ≠ []) :
    ((g.map normGenre).toFinset).Nonempty := by
  match g, hne with
  | x :: rest, _ => exact ⟨normGenre x, by simp⟩

theorem mfind_mapSet_self {β : Type} (k : String) (v : β) (m : List (String × β)) :
    mfind k (mapSet k v m) = some v := by
  induction m with
  | nil => simp [mapSet, mfind]
  | cons p rest ih =>
    by_cases h : p.1 = k
    · simp [mapSet, h, mfind]
    · simp [mapSet, h, mfind, ih]

theorem mfind_mapSet_ne {β : Type} (k k' : String) (v : β) (m : List (String × β))
    (h : k' ≠ k) : mfind k' (mapSet k v m) = mfind k' m := by
  induction m with
  | nil =>
    simp only [mapSet, mfind]
    rw [if_neg (Ne.symm h)]
  | cons p rest ih =>
    obtain ⟨pk, pv⟩ := p
    by_cases hp : pk = k
    · subst hp
      simp only [mapSet, if_pos rfl, mfind]
      rw [if_neg (Ne.symm h), if_neg (Ne.symm h)]
    · simp only [mapSet, if_neg hp, mfind]
      by_cases hpk : pk = k'
      · rw [if_pos hpk, if_pos hpk]
      · rw [if_neg hpk, if_neg hpk]
        exact ih

theorem mfind_mapDelete_self {β : Type} (k : String) (m : List (String × β)) :
    mfind k (mapDelete k m) = none := by
  induction m with
  | nil => simp [mapDelete, mfind]
  | cons p rest ih =>
    by_cases h : p.1 = k
    · simp [mapDelete, h, ih]
    · simp [mapDelete, h, mfind, ih]

theorem redisGet_preserves {V : Type} (st : RedisClient.CacheState V)
    (key : String) (now : ℕ) :
    (RedisClient.redisGet st key now).2.isConnected = st.isConnected ∧
    (RedisClient.redisGet st key now).2.defaultTTL = st.defaultTTL := by
  unfold RedisClient.redisGet
  by_cases hc : st.isConnected = false
  · rw [if_pos hc]
    exact ⟨rfl, rfl⟩
  · rw [if_neg hc]
    cases hfind : mfind key st.store with
    | none => exact ⟨rfl, rfl⟩
    | some entry =>
      dsimp only
      by_cases hexp : entry.timestamp + entry.ttl * 1000 < now
      · rw [if_pos hexp]
        exact ⟨rfl, rfl⟩
      · rw [if_neg hexp]
        exact ⟨rfl, rfl⟩

theorem issueTimes_le_succ (t0 : ℕ) (dur : ℕ → ℕ) (n : ℕ) :
    LastFmClient.issueTimes t0 dur n + 200 ≤ LastFmClient.issueTimes t0 dur (n + 1) := by
  simp [LastFmClient.issueTimes]

theorem issueTimes_mono (t0 : ℕ) (dur : ℕ → ℕ) :
    Monotone (LastFmClient.issueTimes t0 dur) := by
  apply monotone_nat_of_le_succ
  intro n
  have := issueTimes_le_succ t0 dur n
  omega

theorem issueTimes_add_five (t0 : ℕ) (dur : ℕ → ℕ) (n : ℕ) :
    LastFmClient.issueTimes t0 dur n + 1000 ≤ LastFmClient.issueTimes t0 dur (n + 5) := by
  have h0 : LastFmClient.issueTimes t0 dur n + 200 ≤ LastFmClient.issueTimes t0 dur (n + 1) :=
    issueTimes_le_succ t0 dur n
  have h1 : LastFmClient.issueTimes t0 dur (n + 1) + 200 ≤ LastFmClient.issueTimes t0 dur (n + 2) :=
    issueTimes_le_succ t0 dur (n + 1)
  have h2 : LastFmClient.issueTimes t0 dur (n + 2) + 200 ≤ LastFmClient.issueTimes t0 dur (n + 3) :=
    issueTimes_le_succ t0 dur (n + 2)
  have h3 : LastFmClient.issueTimes t0 dur (n + 3) + 200 ≤ LastFmClient.issueTimes t0 dur (n + 4) :=
    issueTimes_le_succ t0 dur (n + 3)
  have h4 : LastFmClient.issueTimes t0 dur (n + 4) + 200 ≤ LastFmClient.issueTimes t0 dur (n + 5) :=
    issueTimes_le_succ t0 dur (n + 4)
  omega

theorem processQueue_eq_append {α : Type} (queue acc : List α) :
    LastFmClient.processQueue acc queue = acc ++ queue := by
  induction queue generalizing acc with
  | nil => simp [LastFmClient.processQueue]
  | cons r rest ih => simp [LastFmClient.processQueue, ih]

theorem addSpotify_inv (done : List APIOrchestrator.SpotifyArtistT)
    (m : List (String × APIOrchestrator.MergeCandidate))
    (sa : APIOrchestrator.SpotifyArtistT) :
    APIOrchestrator.SpInv done m →
    APIOrchestrator.SpInv (done ++ [sa]) (APIOrchestrator.addSpotify m sa) := by
  rintro ⟨hnd, hsome, hent⟩
  unfold APIOrchestrator.addSpotify
  simp only [APIOrchestrator.convertSpotifyToArtist]
  refine ⟨mapKeys_mapSet_nodup _ _ _ hnd, ?_, ?_⟩
  · intro k'
    by_cases hk : k' = jsLower sa.name
    · subst hk
      rw [mfind_mapSet_self]
      simp only [Option.isSome_some, true_iff]
      exact ⟨sa, by simp, rfl⟩
    · rw [mfind_mapSet_ne _ _ _ _ hk, hsome k']
      constructor
      · rintro ⟨x, hx, hxe⟩
        exact ⟨x, by simp [hx], hxe⟩
      · rintro ⟨x, hx, hxe⟩
        rcases List.mem_append.mp hx with hx' | hx'
        · exact ⟨x, hx', hxe⟩
        · simp only [List.mem_singleton] at hx'
          subst hx'
          exact absurd hxe.symm hk
  · intro k' c hc
    by_cases hk : k' = jsLower sa.name
    · subst hk
      rw [mfind_mapSet_self] at hc
      cases hc
      exact ⟨rfl, rfl, sa, by simp, rfl, rfl⟩
    · rw [mfind_mapSet_ne _ _ _ _ hk] at hc
      obtain ⟨h1, h2, x, hx, hxe, hxd⟩ := hent k' c hc
      exact ⟨h1, h2, x, by simp [hx], hxe, hxd⟩

theorem foldl_addSpotify_inv (l done : List APIOrchestrator.SpotifyArtistT)
    (m : List (String × APIOrchestrator.MergeCandidate)) :
    APIOrchestrator.SpInv done m →
    APIOrchestrator.SpInv (done ++ l) (l.foldl APIOrchestrator.addSpotify m) := by
  induction l generalizing done m with
  | nil =>
    intro h
    simpa using h
  | cons sa rest ih =>
    intro h
    have hstep := addSpotify_inv done m sa h
    have := ih (done ++ [sa]) (APIOrchestrator.addSpotify m sa) hstep
    simpa [List.append_assoc] using this

theorem spPhase_inv (sp : List APIOrchestrator.SpotifyArtistT) :
    APIOrchestrator.SpInv sp (sp.foldl APIOrchestrator.addSpotify []) := by
  have base : APIOrchestrator.SpInv [] [] := by
    refine ⟨by simp [mapKeys], ?_, ?_⟩
    · intro k
      simp [mfind]
    · intro k c hc
      simp [mfind] at hc
  simpa using foldl_addSpotify_inv sp [] [] base

theorem spInv_to_mergeInv (sp : List APIOrchestrator.SpotifyArtistT)
    (m : List (String × APIOrchestrator.MergeCandidate)) :
    APIOrchestrator.SpInv sp m → APIOrchestrator.MergeInv sp [] m := by
  rintro ⟨hnd, hsome, hent⟩
  refine ⟨hnd, ?_, ?_⟩
  · intro k
    rw [hsome k]
    simp
  · intro k c hc
    obtain ⟨h1, h2, x, hx, hxe, hxd⟩ := hent k c hc
    refine ⟨?_, ?_, ?_, ?_, ?_, ?_⟩
    · rw [h1]
      simp only [List.mem_singleton, true_iff]
      exact ⟨x, hx, hxe⟩
    · rw [h1]
      simp
    · intro sa hsa
      rw [hxd] at hsa
      cases hsa
      exact ⟨hx, hxe⟩
    · intro _
      rw [hxd]
      rfl
    · intro la hla
      rw [h2] at hla
      cases hla
    · rintro ⟨la, hla, _⟩
      cases hla

theorem addLastfm_inv (sp : List APIOrchestrator.SpotifyArtistT)
    (lfdone : List APIOrchestrator.LastFmArtistT)
    (m : List (String × APIOrchestrator.MergeCandidate))
    (la : APIOrchestrator.LastFmArtistT) :
    APIOrchestrator.MergeInv sp lfdone m →
    APIOrchestrator.MergeInv sp (lfdone ++ [la]) (APIOrchestrator.addLastfm m la) := by
  rintro ⟨hnd, hsome, hent⟩
  unfold APIOrchestrator.addLastfm
  simp only [APIOrchestrator.convertLastFmToArtist]
  cases hfind : mfind (jsLower la.name) m with
  | some existing =>
    obtain ⟨he1, he2, he3, he4, he5, he6⟩ := hent (jsLower la.name) existing hfind
    refine ⟨mapKeys_mapSet_nodup _ _ _ hnd, ?_, ?_⟩
    · intro k'
      by_cases hk : k' = jsLower la.name
      · subst hk
        rw [mfind_mapSet_self]
        simp only [Option.isSome_some, true_iff]
        exact Or.inr ⟨la, by simp, rfl⟩
      · rw [mfind_mapSet_ne _ _ _ _ hk, hsome k']
        constructor
        · rintro (hs | ⟨x, hx, hxe⟩)
          · exact Or.inl hs
          · exact Or.inr ⟨x, by simp [hx], hxe⟩
        · rintro (hs | ⟨x, hx, hxe⟩)
          · exact Or.inl hs
          · rcases List.mem_append.mp hx with hx' | hx'
            · exact Or.inr ⟨x, hx', hxe⟩
            · simp only [List.mem_singleton] at hx'
              subst hx'
              exact absurd hxe.symm hk
    · intro k' c hc
      by_cases hk : k' = jsLower la.name
      · subst hk
        rw [mfind_mapSet_self] at hc
        cases hc
        refine ⟨?_, ?_, ?_, ?_, ?_, ?_⟩
        · simp only [List.mem_append]
          rw [show ("spotify" ∈ existing.sources ∨ "spotify" ∈ ["lastfm"]) ↔
              ("spotify" ∈ existing.sources ∨ False) from by simp]
          rw [or_false]
          exact he1
        · simp only [List.mem_append, List.mem_singleton]
          constructor
          · intro _
            exact ⟨la, by simp, rfl⟩
          · intro _
            exact Or.inr trivial
        · intro sa hsa
          exact he3 sa hsa
        · intro hex
          exact he4 hex
        · intro la' hla'
          cases hla'
          exact ⟨by simp, rfl⟩
        · intro _
          rfl
      · rw [mfind_mapSet_ne _ _ _ _ hk] at hc
        obtain ⟨g1, g2, g3, g4, g5, g6⟩ := hent k' c hc
        refine ⟨g1, ?_, g3, g4, ?_, ?_⟩
        · rw [g2]
          constructor
          · rintro ⟨x, hx, hxe⟩
            exact ⟨x, by simp [hx], hxe⟩
          · rintro ⟨x, hx, hxe⟩
            rcases List.mem_append.mp hx with hx' | hx'
            · exact ⟨x, hx', hxe⟩
            · simp only [List.mem_singleton] at hx'
              subst hx'
              exact absurd hxe.symm hk
        · intro la' hla'
          obtain ⟨hmem, hkey⟩ := g5 la' hla'
          exact ⟨by simp [hmem], hkey⟩
        · rintro ⟨la', hla', hkey⟩
          rcases List.mem_append.mp hla' with hx' | hx'
          · exact g6 ⟨la', hx', hkey⟩
          · simp only [List.mem_singleton] at hx'
            subst hx'
            exact absurd hkey.symm hk
  | none =>
    have hnotin : ¬((∃ sa ∈ sp, jsLower sa.name = jsLower la.name) ∨
        ∃ x ∈ lfdone, jsLower x.name = jsLower la.name) := by
      rw [← hsome (jsLower la.name)]
      simp [hfind]
    push_neg at hnotin
    refine ⟨mapKeys_mapSet_nodup _ _ _ hnd, ?_, ?_⟩
    · intro k'
      by_cases hk : k' = jsLower la.name
      · subst hk
        rw [mfind_mapSet_self]
        simp only [Option.isSome_some, true_iff]
        exact Or.inr ⟨la, by simp, rfl⟩
      · rw [mfind_mapSet_ne _ _ _ _ hk, hsome k']
        constructor
        · rintro (hs | ⟨x, hx, hxe⟩)
          · exact Or.inl hs
          · exact Or.inr ⟨x, by simp [hx], hxe⟩
        · rintro (hs | ⟨x, hx, hxe⟩)
          · exact Or.inl hs
          · rcases List.mem_append.mp hx with hx' | hx'
            · exact Or.inr ⟨x, hx', hxe⟩
            · simp only [List.mem_singleton] at hx'
              subst hx'
              exact absurd hxe.symm hk
    · intro k' c hc
      by_cases hk : k' = jsLower la.name
      · subst hk
        rw [mfind_mapSet_self] at hc
        cases hc
        refine ⟨?_, ?_, ?_, ?_, ?_, ?_⟩
        · simp only [List.mem_singleton]
          rw [show ("spotify" : String) = "lastfm" ↔ False from by simp]
          rw [false_iff]
          push_neg
          intro x hx
          exact fun hkey => (hnotin.1 x hx) hkey
        · simp only [List.mem_singleton, true_iff]
          exact ⟨la, by simp, rfl⟩
        · intro sa hsa
          cases hsa
        · rintro ⟨x, hx, hkey⟩
          exact absurd hkey (hnotin.1 x hx)
        · intro la' hla'
          cases hla'
          exact ⟨by simp, rfl⟩
        · intro _
          rfl
      · rw [mfind_mapSet_ne _ _ _ _ hk] at hc
        obtain ⟨g1, g2, g3, g4, g5, g6⟩ := hent k' c hc
        refine ⟨g1, ?_, g3, g4, ?_, ?_⟩
        · rw [g2]
          constructor
          · rintro ⟨x, hx, hxe⟩
            exact ⟨x, by simp [hx], hxe⟩
          · rintro ⟨x, hx, hxe⟩
            rcases List.mem_append.mp hx with hx' | hx'
            · exact ⟨x, hx', hxe⟩
            · simp only [List.mem_singleton] at hx'
              subst hx'
              exact absurd hxe.symm hk
        · intro la' hla'
          obtain ⟨hmem, hkey⟩ := g5 la' hla'
          exact ⟨by simp [hmem], hkey⟩
        · rintro ⟨la', hla', hkey⟩
          rcases List.mem_append.mp hla' with hx' | hx'
          · exact g6 ⟨la', hx', hkey⟩
          · simp only [List.mem_singleton] at hx'
            subst hx'
            exact absurd hkey.symm hk

theorem foldl_addLastfm_inv (l : List APIOrchestrator.LastFmArtistT)
    (sp : List APIOrchestrator.SpotifyArtistT)
    (lfdone : List APIOrchestrator.LastFmArtistT)
    (m : List (String × APIOrchestrator.MergeCandidate)) :
    APIOrchestrator.MergeInv sp lfdone m →
    APIOrchestrator.MergeInv sp (lfdone ++ l) (l.foldl APIOrchestrator.addLastfm m) := by
  induction l generalizing lfdone m with
  | nil =>
    intro h
    simpa using h
  | cons la rest ih =>
    intro h
    have hstep := addLastfm_inv sp lfdone m la h
    have := ih (lfdone ++ [la]) (APIOrchestrator.addLastfm m la) hstep
    simpa [List.append_assoc] using this

theorem mergeCandidates_inv (sp : List APIOrchestrator.SpotifyArtistT)
    (lf : List APIOrchestrator.LastFmArtistT) :
    APIOrchestrator.MergeInv sp lf (APIOrchestrator.mergeCandidates sp lf) := by
  have h1 := spInv_to_mergeInv sp _ (spPhase_inv sp)
  simpa using foldl_addLastfm_inv lf sp [] _ h1

/-! ## Claim theorems -/

/-- C6: for duplicate-free (after normalization) genre lists the overlap is
symmetric and lies in `[0, 1]`; a non-empty duplicate-free list against itself
scores `1`; any list against the empty list scores `0`. -/
theorem claim_C6_genre_overlap (g1 g2 g : List String)
    (h1 : (g1.map normGenre).Nodup) (h2 : (g2.map normGenre).Nodup)
    (hg : (g.map normGenre).Nodup) (hgne : g ≠ []) :
    SimilarityCalculator.calculateGenreOverlap g1 g2 =
      SimilarityCalculator.calculateGenreOverlap g2 g1 ∧
    0 ≤ SimilarityCalculator.calculateGenreOverlap g1 g2 ∧
    SimilarityCalculator.calculateGenreOverlap g1 g2 ≤ 1 ∧
    SimilarityCalculator.calculateGenreOverlap g g = 1 ∧
    SimilarityCalculator.calculateGenreOverlap g [] = 0 := by
  refine ⟨?_, ?_, ?_, ?_, ?_⟩
  · by_cases hne1 : g1 = []
    · simp [SimilarityCalculator.calculateGenreOverlap, hne1]
    by_cases hne2 : g2 = []
    · simp [SimilarityCalculator.calculateGenreOverlap, hne2]
    rw [genreOverlap_eq_jaccard g1 g2 h1 hne1 hne2,
      genreOverlap_eq_jaccard g2 g1 h2 hne2 hne1,
      Finset.inter_comm, Finset.union_comm]
  · by_cases hne1 : g1 = []
    · simp [SimilarityCalculator.calculateGenreOverlap, hne1]
    by_cases hne2 : g2 = []
    · simp [SimilarityCalculator.calculateGenreOverlap, hne2]
    rw [genreOverlap_eq_jaccard g1 g2 h1 hne1 hne2]
    positivity
  · by_cases hne1 : g1 = []
    · simp [SimilarityCalculator.calculateGenreOverlap, hne1]
    by_cases hne2 : g2 = []
    · simp [SimilarityCalculator.calculateGenreOverlap, hne2]
    rw [genreOverlap_eq_jaccard g1 g2 h1 hne1 hne2]
    have hpos : (0 : ℚ) <
        (((g1.map normGenre).toFinset ∪ (g2.map normGenre).toFinset).card : ℚ) := by
      have hne := toFinset_map_nonempty g1 hne1
      have : 0 < ((g1.map normGenre).toFinset ∪ (g2.map normGenre).toFinset).card :=
        Finset.card_pos.mpr (hne.mono Finset.subset_union_left)
      exact_mod_cast this
    rw [div_le_one hpos]
    exact Nat.cast_le.mpr (Finset.card_le_card Finset.inter_subset_union)
  · rw [genreOverlap_eq_jaccard g g hg hgne hgne, Finset.inter_self, Finset.union_self]
    have hne := toFinset_map_nonempty g hgne
    have hpos : 0 < ((g.map normGenre).toFinset).card := Finset.card_pos.mpr hne
    rw [div_self]
    exact_mod_cast Nat.pos_iff_ne_zero.mp hpos
  · simp [SimilarityCalculator.calculateGenreOverlap]

/-- C6 witness: the spec's own running example — "Key Glock" genres against
"Pooh Shiesty" genres — satisfies every hypothesis. -/
theorem claim_C6_genre_overlap_witness :
    SimilarityCalculator.calculateGenreOverlap
        ["memphis rap", "trap", "southern hip hop"]
        ["memphis rap", "trap", "gangsta rap"] =
      SimilarityCalculator.calculateGenreOverlap
        ["memphis rap", "trap", "gangsta rap"]
        ["memphis rap", "trap", "southern hip hop"] ∧
    0 ≤ SimilarityCalculator.calculateGenreOverlap
        ["memphis rap", "trap", "southern hip hop"]
        ["memphis rap", "trap", "gangsta rap"] ∧
    SimilarityCalculator.calculateGenreOverlap
        ["memphis rap", "trap", "southern hip hop"]
        ["memphis rap", "trap", "gangsta rap"] ≤ 1 ∧
    SimilarityCalculator.calculateGenreOverlap
        ["memphis rap", "trap", "southern hip hop"]
        ["memphis rap", "trap", "southern hip hop"] = 1 ∧
    SimilarityCalculator.calculateGenreOverlap
        ["memphis rap", "trap", "southern hip hop"] [] = 0 :=
  claim_C6_genre_overlap
    ["memphis rap", "trap", "southern hip hop"]
    ["memphis rap", "trap", "gangsta rap"]
    ["memphis rap", "trap", "southern hip hop"]
    (by decide) (by decide) (by decide) (by decide)

/-- C10: on the empty input list, `MathUtils.mean`, `median`,
`standardDeviation`, `percentile` (for every percentile argument) and
`giniCoefficient` all return `0` — each guards the empty case before any
division or indexing. -/
theorem claim_C10_stats_empty :
    MathUtils.mean [] = 0 ∧ MathUtils.median [] = 0 ∧
    MathUtils.standardDeviation [] = 0 ∧
    (∀ p : ℚ, MathUtils.percentile [] p = 0) ∧
    MathUtils.giniCoefficient [] = 0 := by
  refine ⟨rfl, rfl, ?_, fun _ => rfl, rfl⟩
  simp [MathUtils.standardDeviation]

/-- C9: `applyContextualAdjustments` changes only the `overall_score` field
(returned clamped to `[0, 10]`); every other field of the `FinalScore` is
returned unchanged. -/
theorem claim_C9_adjustments_frame (score : FinalScore)
    (context : ScoringService.AdjustmentContext) :
    (ScoringService.applyContextualAdjustments score context).artist_name =
      score.artist_name ∧
    (ScoringService.applyContextualAdjustments score context).volume_score =
      score.volume_score ∧
    (ScoringService.applyContextualAdjustments score context).competition_score =
      score.competition_score ∧
    (ScoringService.applyContextualAdjustments score context).trend_score =
      score.trend_score ∧
    (ScoringService.applyContextualAdjustments score context).similarity_score =
      score.similarity_score ∧
    (ScoringService.applyContextualAdjustments score context).confidence_level =
      score.confidence_level ∧
    (ScoringService.applyContextualAdjustments score context).calculated_at =
      score.calculated_at ∧
    0 ≤ (ScoringService.applyContextualAdjustments score context).overall_score ∧
    (ScoringService.applyContextualAdjustments score context).overall_score ≤ 10 :=
  ⟨rfl, rfl, rfl, rfl, rfl, rfl, rfl, clamp010_nonneg _, clamp010_le_ten _⟩

/-- C1 counterexample: `ScoringService.calculateFinalScore` does not clamp.
With all five component scores at the (pathological, NaN-free) value `-100`,
the produced `overall_score` is `-100`, outside `[0, 10]`. -/
theorem claim_C1_counterexample :
    (ScoringService.calculateFinalScore scoringConfig (-100) (-100) (-100) (-100)
        (-100) "pathological" 0).overall_score < 0 := by
  norm_num [ScoringService.calculateFinalScore, scoringConfig, scoringWeights,
    round2, jsRound]

/-- C1 amended: `calculateFinalScore` itself never clamps; its `overall_score`
lies in `[0, 10]` whenever all component scores already do (the weights sum
to 1 under the default configuration). The unconditional clamp to `[0, 10]`
is applied only by `applyContextualAdjustments`. -/
theorem claim_C1_range_for_valid_inputs
    (v c t s sim : ℚ) (name : String) (now : ℕ)
    (hv0 : 0 ≤ v) (hv1 : v ≤ 10) (hc0 : 0 ≤ c) (hc1 : c ≤ 10)
    (ht0 : 0 ≤ t) (ht1 : t ≤ 10) (hs0 : 0 ≤ s) (hs1 : s ≤ 10)
    (hm0 : 0 ≤ sim) (hm1 : sim ≤ 10) :
    0 ≤ (ScoringService.calculateFinalScore scoringConfig v c t s sim
          name now).overall_score ∧
    (ScoringService.calculateFinalScore scoringConfig v c t s sim
          name now).overall_score ≤ 10 := by
  have hbody : (ScoringService.calculateFinalScore scoringConfig v c t s sim
      name now).overall_score =
      round2 (v * (3/10) + c * (1/4) + t * (1/5) + s * (1/10) + sim * (3/20)) := by
    simp [ScoringService.calculateFinalScore, scoringConfig, scoringWeights]
    norm_num
  rw [hbody]
  constructor
  · have h := @round2_mono 0
      (v * (3/10) + c * (1/4) + t * (1/5) + s * (1/10) + sim * (3/20))
      (by linarith)
    rwa [round2_zero] at h
  · have h := @round2_mono
      (v * (3/10) + c * (1/4) + t * (1/5) + s * (1/10) + sim * (3/20)) 10
      (by linarith)
    rwa [round2_ten] at h

/-- C1 witness: at component scores `(10, 10, 0, 0, 0)` the hypotheses hold
and the overall score is inside `[0, 10]`. -/
theorem claim_C1_range_witness :
    0 ≤ (ScoringService.calculateFinalScore scoringConfig 10 10 0 0 0
          "witness" 0).overall_score ∧
    (ScoringService.calculateFinalScore scoringConfig 10 10 0 0 0
          "witness" 0).overall_score ≤ 10 :=
  claim_C1_range_for_valid_inputs 10 10 0 0 0 "witness" 0
    (by simp) (by simp) (by simp) (by simp) (by simp) (by simp)
    (by simp) (by simp) (by simp) (by simp)

/-- C4: the Last.fm client's queue discipline. Consecutive transport-boundary
issue times are at least 200 ms apart (the fixed `window/N` drain delay for
`RATE_LIMIT = 5`), hence any 1000 ms half-open window contains at most 5
issued requests; and the drain loop executes every queued request, in FIFO
arrival order — none is dropped. -/
theorem claim_C4_rate_limit_queue {α : Type} (t0 : ℕ) (dur : ℕ → ℕ) (t N : ℕ)
    (queue : List α) :
    (∀ n, LastFmClient.issueTimes t0 dur n + 200 ≤
      LastFmClient.issueTimes t0 dur (n + 1)) ∧
    ((Finset.range N).filter
        (fun i => t ≤ LastFmClient.issueTimes t0 dur i ∧
          LastFmClient.issueTimes t0 dur i < t + 1000)).card ≤ 5 ∧
    LastFmClient.processQueue [] queue = queue := by
  refine ⟨issueTimes_le_succ t0 dur, ?_, by rw [processQueue_eq_append]; simp⟩
  set S := (Finset.range N).filter
    (fun i => t ≤ LastFmClient.issueTimes t0 dur i ∧
      LastFmClient.issueTimes t0 dur i < t + 1000) with hSdef
  rcases S.eq_empty_or_nonempty with hS | hS
  · rw [hS]
    simp
  · have hmS : S.min' hS ∈ S := S.min'_mem hS
    have hm_t : t ≤ LastFmClient.issueTimes t0 dur (S.min' hS) :=
      (Finset.mem_filter.mp hmS).2.1
    have hsub : S ⊆ Finset.Ico (S.min' hS) (S.min' hS + 5) := by
      intro i hi
      have h1 : S.min' hS ≤ i := S.min'_le i hi
      have h2 : i < S.min' hS + 5 := by
        by_contra hcon
        push_neg at hcon
        have hmono := issueTimes_mono t0 dur hcon
        have hfive := issueTimes_add_five t0 dur (S.min' hS)
        have hiw : LastFmClient.issueTimes t0 dur i < t + 1000 :=
          (Finset.mem_filter.mp hi).2.2
        omega
      exact Finset.mem_Ico.mpr ⟨h1, h2⟩
    calc S.card ≤ (Finset.Ico (S.min' hS) (S.min' hS + 5)).card :=
          Finset.card_le_card hsub
      _ = 5 := by simp

/-- C5: `getOrSet` on a connected client: a cache hit returns the cached value
with zero factory invocations and no state change beyond the read; a cache
miss invokes the factory exactly once, stores its value under the key (with
the TTL-selection rule of `set`), and returns it. -/
theorem claim_C5_get_or_set (V : Type) (st : RedisClient.CacheState V) (k : String)
    (fv : V) (ttl : Option ℕ) (dt : Option String) (now : ℕ)
    (hconn : st.isConnected = true) :
    (∀ (v : V) (st' : RedisClient.CacheState V),
      RedisClient.redisGet st k now = (some v, st') →
      RedisClient.getOrSet st k fv ttl dt now = (v, st', 0)) ∧
    (∀ st' : RedisClient.CacheState V,
      RedisClient.redisGet st k now = (none, st') →
      (RedisClient.getOrSet st k fv ttl dt now).1 = fv ∧
      (RedisClient.getOrSet st k fv ttl dt now).2.2 = 1 ∧
      mfind k (RedisClient.getOrSet st k fv ttl dt now).2.1.store =
        some ⟨fv, now, RedisClient.finalTTL ttl dt st.defaultTTL, "1.0"⟩) := by
  constructor
  · intro v st' h
    unfold RedisClient.getOrSet
    rw [h]
  · intro st' h
    have hpres := redisGet_preserves st k now
    rw [h] at hpres
    unfold RedisClient.getOrSet
    rw [h]
    dsimp only
    refine ⟨rfl, rfl, ?_⟩
    unfold RedisClient.redisSet
    rw [show st'.isConnected = true from hpres.1.trans hconn]
    rw [if_neg (by simp)]
    dsimp only
    rw [hpres.2]
    exact mfind_mapSet_self k _ st'.store

/-- C5 witness: on an empty connected store, `getOrSet` of the key `"k"` with
factory value `42` runs the factory once and stores the entry; immediately
afterwards `getOrSet` with a different factory value hits the cache, returns
`42` and runs no factory. -/
theorem claim_C5_get_or_set_witness :
    ((RedisClient.getOrSet (⟨[], true, 3600⟩ : RedisClient.CacheState ℕ)
        "k" 42 (some 60) none 1000).1 = 42 ∧
      (RedisClient.getOrSet (⟨[], true, 3600⟩ : RedisClient.CacheState ℕ)
        "k" 42 (some 60) none 1000).2.2 = 1 ∧
      mfind "k" (RedisClient.getOrSet (⟨[], true, 3600⟩ : RedisClient.CacheState ℕ)
          "k" 42 (some 60) none 1000).2.1.store =
        some ⟨42, 1000, RedisClient.finalTTL (some 60) none 3600, "1.0"⟩) ∧
    RedisClient.getOrSet
        (⟨[("k", ⟨42, 1000, 60, "1.0"⟩)], true, 3600⟩ : RedisClient.CacheState ℕ)
        "k" 99 (some 60) none 2000 =
      (42, ⟨[("k", ⟨42, 1000, 60, "1.0"⟩)], true, 3600⟩, 0) :=
  ⟨(claim_C5_get_or_set ℕ ⟨[], true, 3600⟩ "k" 42 (some 60) none 1000 rfl).2
      ⟨[], true, 3600⟩ rfl,
    (claim_C5_get_or_set ℕ ⟨[("k", ⟨42, 1000, 60, "1.0"⟩)], true, 3600⟩
        "k" 99 (some 60) none 2000 rfl).1 42
      ⟨[("k", ⟨42, 1000, 60, "1.0"⟩)], true, 3600⟩ rfl⟩

/-- C7: after `set(k, v, ttl)` at time `tset` on a connected client with a
positive explicit TTL, a `get(k)` at any `tget ≤ tset + ttl·1000` returns `v`
(application-level timestamp check), and a `get(k)` at any
`tget > tset + ttl·1000` misses and deletes the expired entry from the store
on that read. -/
theorem claim_C7_cache_roundtrip (V : Type) (st : RedisClient.CacheState V)
    (k : String) (v : V) (t tset tget : ℕ)
    (hconn : st.isConnected = true) (ht : 0 < t) :
    (tget ≤ tset + t * 1000 →
      RedisClient.redisGet (RedisClient.redisSet st k v (some t) none tset).2 k tget =
        (some v, (RedisClient.redisSet st k v (some t) none tset).2)) ∧
    (tset + t * 1000 < tget →
      (RedisClient.redisGet (RedisClient.redisSet st k v (some t) none tset).2
          k tget).1 = none ∧
      mfind k (RedisClient.redisGet (RedisClient.redisSet st k v (some t) none tset).2
          k tget).2.store = none) := by
  have hset : (RedisClient.redisSet st k v (some t) none tset).2 =
      { st with store := mapSet k ⟨v, tset, t, "1.0"⟩ st.store } := by
    unfold RedisClient.redisSet
    rw [show st.isConnected = true from hconn]
    rw [if_neg (by simp)]
    unfold RedisClient.finalTTL RedisClient.jsOrNat
    dsimp only
    rw [if_neg (Nat.pos_iff_ne_zero.mp ht)]
  rw [hset]
  have hfind : mfind k (mapSet k (⟨v, tset, t, "1.0"⟩ : RedisClient.CacheEntry V)
      st.store) = some ⟨v, tset, t, "1.0"⟩ := mfind_mapSet_self k _ st.store
  constructor
  · intro hle
    unfold RedisClient.redisGet
    rw [show ({ st with store := mapSet k ⟨v, tset, t, "1.0"⟩ st.store} :
        RedisClient.CacheState V).isConnected = true from hconn]
    rw [if_neg (by simp)]
    dsimp only
    rw [hfind]
    dsimp only
    rw [if_neg (by omega)]
  · intro hlt
    unfold RedisClient.redisGet
    rw [show ({ st with store := mapSet k ⟨v, tset, t, "1.0"⟩ st.store} :
        RedisClient.CacheState V).isConnected = true from hconn]
    rw [if_neg (by simp)]
    dsimp only
    rw [hfind]
    dsimp only
    rw [if_pos (by omega)]
    exact ⟨rfl, mfind_mapDelete_self k _⟩

/-- C7 witness: store `7` under `"k"` at time `0` with a 60-second TTL on an
empty connected store; a read at `59999` ms hits with `7`, a read at `60001`
ms misses and the entry is gone from the resulting store. -/
theorem claim_C7_cache_roundtrip_witness :
    RedisClient.redisGet
        (RedisClient.redisSet (⟨[], true, 3600⟩ : RedisClient.CacheState ℕ)
          "k" 7 (some 60) none 0).2 "k" 59999 =
      (some 7,
        (RedisClient.redisSet (⟨[], true, 3600⟩ : RedisClient.CacheState ℕ)
          "k" 7 (some 60) none 0).2) ∧
    ((RedisClient.redisGet
        (RedisClient.redisSet (⟨[], true, 3600⟩ : RedisClient.CacheState ℕ)
          "k" 7 (some 60) none 0).2 "k" 60001).1 = none ∧
      mfind "k" (RedisClient.redisGet
        (RedisClient.redisSet (⟨[], true, 3600⟩ : RedisClient.CacheState ℕ)
          "k" 7 (some 60) none 0).2 "k" 60001).2.store = none) :=
  ⟨(claim_C7_cache_roundtrip ℕ ⟨[], true, 3600⟩ "k" 7 60 0 59999 rfl
      (by decide)).1 (by decide),
    (claim_C7_cache_roundtrip ℕ ⟨[], true, 3600⟩ "k" 7 60 0 60001 rfl
      (by decide)).2 (by decide)⟩

/-- C3: total provider failure (`findSimilarArtists` rejecting) still resolves
with success: the suggestions are the static `generateMockSuggestions` table
(sorted and sliced) and `fallback_used` is `true`; conversely, whenever the
real-data analysis produced at least one qualifying suggestion, the response
carries those suggestions with `fallback_used = false`. -/
theorem claim_C3_fallback_flag (artist : String) (limitRaw : ℕ)
    (cands : List Suggestions.CandidateR) :
    ((Suggestions.processSuggestions artist limitRaw (Except.error ())).success = true ∧
      (Suggestions.processSuggestions artist limitRaw (Except.error ())).fallback_used =
        true ∧
      (Suggestions.processSuggestions artist limitRaw (Except.error ())).suggestions =
        (Suggestions.sortByScoreDesc
          (Suggestions.generateMockSuggestions artist (min limitRaw 10))).take
          (min limitRaw 10)) ∧
    (Suggestions.buildRealSuggestions (min limitRaw 10) cands ≠ [] →
      (Suggestions.processSuggestions artist limitRaw (Except.ok cands)).success = true ∧
      (Suggestions.processSuggestions artist limitRaw (Except.ok cands)).fallback_used =
        false ∧
      (Suggestions.processSuggestions artist limitRaw (Except.ok cands)).suggestions =
        (Suggestions.sortByScoreDesc
          (Suggestions.buildRealSuggestions (min limitRaw 10) cands)).take
          (min limitRaw 10)) := by
  constructor
  · exact ⟨rfl, rfl, rfl⟩
  · intro hne
    unfold Suggestions.processSuggestions
    dsimp only
    rw [if_neg (by simpa [List.length_eq_zero] using hne)]
    exact ⟨rfl, rfl, rfl⟩

theorem c3_sample_real_nonempty :
    Suggestions.buildRealSuggestions (min 3 10)
      [{ name := "Pooh Shiesty", genres := ["memphis rap"]
         style_compatibility := 9/10
         sources := ["spotify", "lastfm"]
         yt := some ⟨8000, 4/5, 7/10, 3/10, "low", "rising"⟩
         bpm := 140 }] ≠ [] := by
  norm_num [Suggestions.buildRealSuggestions, Suggestions.candidateScore,
    calculateCompositeScore, clamp010]
  simp

/-- C3 witness: with every provider failed the "Drake" request succeeds with
the mock table flagged `fallback_used`; with one qualifying analyzed candidate
the request succeeds un-flagged with the real suggestions. -/
theorem claim_C3_fallback_flag_witness :
    ((Suggestions.processSuggestions "Drake" 3 (Except.error ())).success = true ∧
      (Suggestions.processSuggestions "Drake" 3 (Except.error ())).fallback_used =
        true ∧
      (Suggestions.processSuggestions "Drake" 3 (Except.error ())).suggestions =
        (Suggestions.sortByScoreDesc
          (Suggestions.generateMockSuggestions "Drake" (min 3 10))).take (min 3 10)) ∧
    ((Suggestions.processSuggestions "Drake" 3 (Except.ok
        [{ name := "Pooh Shiesty", genres := ["memphis rap"]
           style_compatibility := 9/10
           sources := ["spotify", "lastfm"]
           yt := some ⟨8000, 4/5, 7/10, 3/10, "low", "rising"⟩
           bpm := 140 }])).success = true ∧
      (Suggestions.processSuggestions "Drake" 3 (Except.ok
        [{ name := "Pooh Shiesty", genres := ["memphis rap"]
           style_compatibility := 9/10
           sources := ["spotify", "lastfm"]
           yt := some ⟨8000, 4/5, 7/10, 3/10, "low", "rising"⟩
           bpm := 140 }])).fallback_used = false ∧
      (Suggestions.processSuggestions "Drake" 3 (Except.ok
        [{ name := "Pooh Shiesty", genres := ["memphis rap"]
           style_compatibility := 9/10
           sources := ["spotify", "lastfm"]
           yt := some ⟨8000, 4/5, 7/10, 3/10, "low", "rising"⟩
           bpm := 140 }])).suggestions =
        (Suggestions.sortByScoreDesc
          (Suggestions.buildRealSuggestions (min 3 10)
            [{ name := "Pooh Shiesty", genres := ["memphis rap"]
               style_compatibility := 9/10
               sources := ["spotify", "lastfm"]
               yt := some ⟨8000, 4/5, 7/10, 3/10, "low", "rising"⟩
               bpm := 140 }])).take (min 3 10)) :=
  ⟨(claim_C3_fallback_flag "Drake" 3
      [{ name := "Pooh Shiesty", genres := ["memphis rap"]
         style_compatibility := 9/10
         sources := ["spotify", "lastfm"]
         yt := some ⟨8000, 4/5, 7/10, 3/10, "low", "rising"⟩
         bpm := 140 }]).1,
    (claim_C3_fallback_flag "Drake" 3
      [{ name := "Pooh Shiesty", genres := ["memphis rap"]
         style_compatibility := 9/10
         sources := ["spotify", "lastfm"]
         yt := some ⟨8000, 4/5, 7/10, 3/10, "low", "rising"⟩
         bpm := 140 }]).2 c3_sample_real_nonempty⟩

/-- C8: the candidate map merged by `findSimilarArtists` holds at most one
entry per case-insensitive artist name (its keys are pairwise distinct), and
an artist returned by both Spotify and Last.fm yields the one entry under its
lowercased name carrying both provider tags in `sources`, with `spotifyData`
taken from a Spotify artist of that name and `lastfmData` from a Last.fm
artist of that name. -/
theorem claim_C8_merge_dedup (sp : List APIOrchestrator.SpotifyArtistT)
    (lf : List APIOrchestrator.LastFmArtistT) :
    (mapKeys (APIOrchestrator.mergeCandidates sp lf)).Nodup ∧
    (∀ sa ∈ sp, ∀ la ∈ lf, jsLower sa.name = jsLower la.name →
      ∃ c, mfind (jsLower sa.name) (APIOrchestrator.mergeCandidates sp lf) = some c ∧
        "spotify" ∈ c.sources ∧ "lastfm" ∈ c.sources ∧
        (∃ sa' ∈ sp, jsLower sa'.name = jsLower sa.name ∧ c.spotifyData = some sa') ∧
        (∃ la' ∈ lf, jsLower la'.name = jsLower sa.name ∧ c.lastfmData = some la')) := by
  obtain ⟨hnd, hsome, hent⟩ := mergeCandidates_inv sp lf
  refine ⟨hnd, ?_⟩
  intro sa hsa la hla hkey
  have hex : (mfind (jsLower sa.name) (APIOrchestrator.mergeCandidates sp lf)).isSome :=
    (hsome _).mpr (Or.inl ⟨sa, hsa, rfl⟩)
  obtain ⟨c, hc⟩ := Option.isSome_iff_exists.mp hex
  obtain ⟨e1, e2, e3, e4, e5, e6⟩ := hent _ c hc
  refine ⟨c, hc, e1.mpr ⟨sa, hsa, rfl⟩, e2.mpr ⟨la, hla, hkey.symm⟩, ?_, ?_⟩
  · have hs := e4 ⟨sa, hsa, rfl⟩
    obtain ⟨sa', hsa'⟩ := Option.isSome_iff_exists.mp hs
    obtain ⟨hmem, hk⟩ := e3 sa' hsa'
    exact ⟨sa', hmem, hk, hsa'⟩
  · have hs := e6 ⟨la, hla, hkey.symm⟩
    obtain ⟨la', hla'⟩ := Option.isSome_iff_exists.mp hs
    obtain ⟨hmem, hk⟩ := e5 la' hla'
    exact ⟨la', hmem, hk, hla'⟩

/-- C8 witness: "Key Glock" from Spotify and "key glock" from Last.fm differ
only in case, so the merged map has distinct keys and one fused entry with
both provider tags and both payloads. -/
theorem claim_C8_merge_dedup_witness :
    (mapKeys (APIOrchestrator.mergeCandidates
      [⟨"sp1", "Key Glock", ["memphis rap"], 70⟩]
      [⟨"key glock", 9/10⟩])).Nodup ∧
    ∃ c, mfind (jsLower "Key Glock")
        (APIOrchestrator.mergeCandidates
          [⟨"sp1", "Key Glock", ["memphis rap"], 70⟩]
          [⟨"key glock", 9/10⟩]) = some c ∧
      "spotify" ∈ c.sources ∧ "lastfm" ∈ c.sources ∧
      (∃ sa' ∈ ([⟨"sp1", "Key Glock", ["memphis rap"], 70⟩] :
          List APIOrchestrator.SpotifyArtistT),
        jsLower sa'.name = jsLower "Key Glock" ∧ c.spotifyData = some sa') ∧
      (∃ la' ∈ ([⟨"key glock", 9/10⟩] : List APIOrchestrator.LastFmArtistT),
        jsLower la'.name = jsLower "Key Glock" ∧ c.lastfmData = some la') :=
  ⟨(claim_C8_merge_dedup [⟨"sp1", "Key Glock", ["memphis rap"], 70⟩]
      [⟨"key glock", 9/10⟩]).1,
    (claim_C8_merge_dedup [⟨"sp1", "Key Glock", ["memphis rap"], 70⟩]
        [⟨"key glock", 9/10⟩]).2
      ⟨"sp1", "Key Glock", ["memphis rap"], 70⟩ (by simp)
      ⟨"key glock", 9/10⟩ (by simp) (by decide)⟩

/-- C2 counterexample: at component scores `(0, 0, 10, 0, 0)` the engine
produces `overall_score = 2` (trend weight `0.2`), while the spec formula
`0.30*volume + 0.25*competition + 0.25*trend + 0.20*saturation`
(+ `0.15`·similarity) gives `2.5`. -/
theorem claim_C2_counterexample :
    (ScoringService.calculateFinalScore scoringConfig 0 0 10 0 0 "typebeat"
        0).overall_score ≠ specClaimedOverall 0 0 10 0 0 := by
  norm_num [ScoringService.calculateFinalScore, scoringConfig, scoringWeights,
    specClaimedOverall, round2, jsRound]

/-- C2 amended: the actual fixed weights, identical in the scoring engine
(default `scoringWeights`) and in `calculateCompositeScore`, are
`0.30·volume + 0.25·competition + 0.20·trend + 0.15·similarity +
0.10·saturation` — similarity sits inside the same unit-sum combination at
`0.15`, and trend/saturation carry `0.20`/`0.10`, not `0.25`/`0.20`. -/
theorem claim_C2_actual_weights (v c t s sim : ℚ) (name : String) (now : ℕ)
    (m : CompositeMetrics) :
    (ScoringService.calculateFinalScore scoringConfig v c t s sim
        name now).overall_score =
      round2 (0.30 * v + 0.25 * c + 0.20 * t + 0.15 * sim + 0.10 * s) ∧
    calculateCompositeScore m =
      clamp010 (0.30 * min (m.volume / 1000) 10 + 0.25 * (m.competition * 10) +
        0.20 * (m.trend * 10) + 0.15 * (m.similarity * 10) +
        0.10 * ((1 - m.saturation) * 10)) := by
  constructor
  · simp only [ScoringService.calculateFinalScore, scoringConfig, scoringWeights]
    congr 1
    norm_num
    ring
  · simp only [calculateCompositeScore, clamp010]
    congr 2
    ring

end TypeBeat
